import Mathlib

/-!
Verification development for the sampling-based trajectory evaluation and
selection engine of `autoware_planning_data_analyzer` (`src/planning/
autoware_planning_data_analyzer/src/node.hpp`).

Modelling conventions:
* C++ `double` values are modelled as real numbers (`ℝ`), computed exactly.
* Timestamps (`rcutils_time_point_value_t`, nanoseconds) are modelled as `ℤ`;
  the `double` expression `timestamp + 1e9 * time_resolution * i` that is
  implicitly converted back to an integer type is modelled over `ℚ` with a
  truncating conversion.
* Fallible C++ operations are modelled in `Except CppError`:
  `std::vector::at` out of bounds becomes `CppError.outOfRange`,
  `throw std::logic_error("data is not enough.")` becomes
  `CppError.logicError`, and an unchecked access with no defined C++
  behaviour (e.g. `std::vector::front` on an empty vector) becomes
  `CppError.undefinedBehaviour`.
* `CppError.emptyBuffer` and `CppError.insufficientHistory` are modelled
  from the spec's error taxonomy (`EmptyBufferError`,
  `InsufficientHistoryError`); the source never raises them, which is
  exactly what some of the claims below turn on.
* `std::sort` is modelled as a relation (`cppSortRel`): the output is some
  permutation of the input that is sorted with respect to the comparator;
  the C++ standard guarantees nothing more (in particular no stability).
  Where the sorted vector is immediately reduced to its least element
  (`std::sort` ascending followed by `front()`), this is modelled directly
  as `List.min?`, which is the uniquely determined result for real-valued
  elements.
* Division by zero follows Lean's `x / 0 = 0` convention.  The only place
  where this diverges from IEEE `double` semantics (`x / 0.0 = ±inf`) is a
  time-to-collision value for an object with exactly zero closing velocity;
  every theorem below stays away from that corner, and the zero-steering
  lateral-acceleration value `v² / (w / tan 0)` is `0` under both
  conventions (IEEE: `v² / +inf = 0`).
-/

/-- Error universe for the engine.  The first three constructors model what
the C++ source can actually do; the last two model the spec's named error
taxonomy (`EmptyBufferError`, `InsufficientHistoryError`), which the source
never raises. -/
inductive CppError where
  | outOfRange : CppError
  | logicError : CppError
  | undefinedBehaviour : CppError
  | emptyBuffer : CppError
  | insufficientHistory : CppError
deriving DecidableEq

/-- Checked element access, modelling `std::vector::at` (throws
`std::out_of_range` when the index is out of bounds). -/
def listAt {α : Type} (xs : List α) (i : ℕ) : Except CppError α :=
  match xs.get? i with
  | some v => Except.ok v
  | none => Except.error CppError.outOfRange

/-- Truncating conversion from a `double` (modelled exactly as `ℚ`) to a
64-bit integer time value; C++ integral conversion truncates toward zero.
`Int.fdiv q.num q.den` is the floor of `q` (the denominator is positive). -/
def cppToInt64 (q : ℚ) : ℤ :=
  if q < 0 then -(Int.fdiv (-q).num (-q).den) else Int.fdiv q.num q.den

/-- A 3-d vector (`tf2::Vector3` / `geometry_msgs::msg::Vector3`). -/
structure Vec3 where
  x : ℝ
  y : ℝ
  z : ℝ

noncomputable def Vec3.add (a b : Vec3) : Vec3 :=
  ⟨a.x + b.x, a.y + b.y, a.z + b.z⟩

noncomputable def Vec3.sub (a b : Vec3) : Vec3 :=
  ⟨a.x - b.x, a.y - b.y, a.z - b.z⟩

noncomputable def Vec3.dot (a b : Vec3) : ℝ :=
  a.x * b.x + a.y * b.y + a.z * b.z

/-- Vector length, `tf2::Vector3::length`. -/
noncomputable def Vec3.length (v : Vec3) : ℝ :=
  Real.sqrt (v.dot v)

/-- Model of `tf2::Vector3::normalized`: the vector divided by its length. -/
noncomputable def Vec3.normalized (v : Vec3) : Vec3 :=
  ⟨v.x / v.length, v.y / v.length, v.z / v.length⟩

/-- A pose.  Modelled from the spec boundary: the quaternion orientation of
`geometry_msgs::msg::Pose` is represented by its action on vectors (the
rotation applied by `autoware::universe_utils::transformPoint`). -/
structure Pose where
  position : Vec3
  rot : Vec3 → Vec3

/-- Modelled from the spec boundary:
`autoware::universe_utils::transformPoint` (external to this repository)
applies the pose's rotation and then its translation. -/
noncomputable def transformPoint (p : Vec3) (pose : Pose) : Vec3 :=
  (pose.rot p).add pose.position

/-- Modelled from the spec boundary:
`autoware::universe_utils::calcDistance3d` (external to this repository) is
the Euclidean distance between the two positions. -/
noncomputable def calcDistance3d (a b : Pose) : ℝ :=
  Real.sqrt ((a.position.x - b.position.x) ^ 2 + (a.position.y - b.position.y) ^ 2 +
    (a.position.z - b.position.z) ^ 2)

/-- Kinematics of a predicted object: initial pose and local linear twist. -/
structure PredictedObjectKinematics where
  initial_pose : Pose
  initial_twist_linear : Vec3

structure PredictedObject where
  kinematics : PredictedObjectKinematics

/-- Model of `autoware_perception_msgs::msg::PredictedObjects` with its header stamp. -/
structure PredictedObjects where
  stamp : ℤ
  objects : List PredictedObject

/-- Model of `nav_msgs::msg::Odometry` with its header stamp. -/
structure Odometry where
  stamp : ℤ
  pose : Pose
  twist_linear : Vec3

/-- Model of `geometry_msgs::msg::AccelWithCovarianceStamped` with its header stamp. -/
structure AccelWithCovarianceStamped where
  stamp : ℤ
  accel_linear : Vec3

/-- Model of `autoware_vehicle_msgs::msg::SteeringReport`; its stamp is a direct
field rather than nested in a header. -/
structure SteeringReport where
  stamp : ℤ
  steering_tire_angle : ℝ

/-- Model of `autoware_planning_msgs::msg::TrajectoryPoint`, restricted to the fields
the engine reads. -/
structure TrajectoryPoint where
  pose : Pose
  longitudinal_velocity_mps : ℝ
  acceleration_mps2 : ℝ
  front_wheel_angle_rad : ℝ

/-- Model of `autoware_planning_msgs::msg::Trajectory` with its header stamp. -/
structure Trajectory where
  stamp : ℤ
  points : List TrajectoryPoint

structure TransformStamped where
  stamp : ℤ

/-- Model of `tf2_msgs::msg::TFMessage`: its stamp lives on the first contained
transform. -/
structure TFMessage where
  transforms : List TransformStamped

structure VehicleInfo where
  wheel_base_m : ℝ

/-- Model of `get_velocity_in_world_coordinate(PredictedObjectKinematics)`:
`transformPoint(v_local, pose) - pose.position`. -/
noncomputable def velocityWorldOfKinematics (k : PredictedObjectKinematics) : Vec3 :=
  (transformPoint k.initial_twist_linear k.initial_pose).sub k.initial_pose.position

/-- Model of `get_velocity_in_world_coordinate(Odometry)`. -/
noncomputable def velocityWorldOfOdometry (odometry : Odometry) : Vec3 :=
  (transformPoint odometry.twist_linear odometry.pose).sub odometry.pose.position

/-- Model of `get_velocity_in_world_coordinate(TrajectoryPoint)`: the local velocity
is `(longitudinal_velocity_mps, 0, 0)`. -/
noncomputable def velocityWorldOfTrajectoryPoint (point : TrajectoryPoint) : Vec3 :=
  (transformPoint ⟨point.longitudinal_velocity_mps, 0, 0⟩ point.pose).sub point.pose.position

/-- Largest representable `double`, `std::numeric_limits<double>::max()`. -/
noncomputable def DBL_MAX : ℝ := 2 ^ 1024 - 2 ^ 971

/-- The per-object value `v_ego2object.length() / v_relative` computed inside
`time_to_collision`'s loop. -/
noncomputable def ttcOfObject (object : PredictedObject) (p_ego : Pose) (v_ego : Vec3) : ℝ :=
  let p_object := object.kinematics.initial_pose
  let v_ego2object := p_object.position.sub p_ego.position
  let v_object := velocityWorldOfKinematics object.kinematics
  let v_relative :=
    v_ego2object.normalized.dot v_ego - v_ego2object.normalized.dot v_object
  v_ego2object.length / v_relative

/-- Model of `time_to_collision` from the anonymous namespace of `node.hpp`.

The source constructs `std::vector<double> time_to_collisions(objects.size())`
(which value-initialises `objects.size()` zeros) and then `push_back`s one
value per object, so the working vector is the zeros followed by the
computed values.  `std::remove_if`/`erase` keep exactly the values that are
not `< 1e-3`; `std::sort` ascending followed by `front()` yields the least
kept value, and is undefined behaviour when nothing is kept. -/
noncomputable def time_to_collision (objects : PredictedObjects) (p_ego : Pose) (v_ego : Vec3) :
    Except CppError ℝ :=
  if objects.objects.isEmpty then Except.ok DBL_MAX
  else
    let seeded := List.replicate objects.objects.length (0 : ℝ)
    let ttcs := seeded ++ objects.objects.map (fun o => ttcOfObject o p_ego v_ego)
    let kept := ttcs.filter (fun v => !(decide (v < 1e-3)))
    match kept.min? with
    | some v => Except.ok v
    | none => Except.error CppError.undefinedBehaviour

/-- Model of `Buffer<T>` from `node.hpp`: a plain vector of messages.  The per-type
timestamp access (`msg.header.stamp` for the generic template,
`msg.stamp` for `SteeringReport`, `msg.transforms.front().header.stamp` for
`TFMessage`) is passed as the extraction function `ts`. -/
structure Buffer (α : Type) where
  msgs : List α

def BUFFER_TIME : ℤ := 20 * 1000000000

def Buffer.append {α : Type} (b : Buffer α) (msg : α) : Buffer α :=
  ⟨b.msgs ++ [msg]⟩

/-- Model of `Buffer::remove_old_data(now)`: `std::remove_if` + `erase` of every
message with timestamp `< now`; the suffix order of the kept messages is
preserved (stable erase-remove). -/
def Buffer.remove_old_data {α : Type} (ts : α → ℤ) (now : ℤ) (b : Buffer α) : Buffer α :=
  ⟨b.msgs.filter (fun m => !(decide (ts m < now)))⟩

/-- The argumentless `Buffer::get()` (`return msgs.front();`):
`std::vector::front` on an empty vector has no defined behaviour. -/
def Buffer.front {α : Type} (b : Buffer α) : Except CppError α :=
  match b.msgs with
  | [] => Except.error CppError.undefinedBehaviour
  | m :: _ => Except.ok m

/-- Model of `Buffer::get(now)`: `std::find_if` for the first message with timestamp
strictly greater than `now`, `std::nullopt` when none exists. -/
def Buffer.get {α : Type} (ts : α → ℤ) (now : ℤ) (b : Buffer α) : Option α :=
  b.msgs.find? (fun m => decide (now < ts m))

/-- Model of `Buffer::is_ready()`: non-empty and spanning strictly more than
`BUFFER_TIME` nanoseconds between first and last message. -/
def Buffer.is_ready {α : Type} (ts : α → ℤ) (b : Buffer α) : Prop :=
  match b.msgs with
  | [] => False
  | m :: rest => BUFFER_TIME < ts ((m :: rest).getLast (by simp)) - ts m

/-- Model of `TrimmedData`: one buffer per stream plus the logical timestamp. -/
structure TrimmedData where
  buf_tf : Buffer TFMessage
  buf_odometry : Buffer Odometry
  buf_objects : Buffer PredictedObjects
  buf_accel : Buffer AccelWithCovarianceStamped
  buf_steer : Buffer SteeringReport
  buf_trajectory : Buffer Trajectory
  timestamp : ℤ

/-- The query time `trimmed_data->timestamp + 1e9 * time_resolution * i`
(computed in `double`, implicitly converted back to the integer time type
at the call to `Buffer::get`). -/
def queryTime (ts : ℤ) (time_resolution : ℚ) (i : ℕ) : ℤ :=
  cppToInt64 ((ts : ℚ) + 1000000000 * time_resolution * (i : ℚ))

/-- The history-collection loop of the `CommonData` constructor: starting at
step `i` with the given remaining iteration budget, sample the objects
buffer at each step and stop at the first missing sample (`break`). -/
def collectObjectsFrom (td : TrimmedData) (time_resolution : ℚ) :
    ℕ → ℕ → List PredictedObjects
  | _, 0 => []
  | i, Nat.succ fuel =>
    match Buffer.get PredictedObjects.stamp (queryTime td.timestamp time_resolution i)
        td.buf_objects with
    | none => []
    | some objs => objs :: collectObjectsFrom td time_resolution (i + 1) fuel

def collectObjects (td : TrimmedData) (resample_num : ℕ) (time_resolution : ℚ) :
    List PredictedObjects :=
  collectObjectsFrom td time_resolution 0 resample_num

/-- The history-collection loop of the `ManualDrivingData` constructor.  Each
iteration samples odometry, then acceleration, then steering, `break`ing at
the first missing sample — so a partial final iteration can leave the three
histories with unequal lengths, exactly as in the source. -/
def collectManualFrom (td : TrimmedData) (time_resolution : ℚ) :
    ℕ → ℕ → List Odometry × List AccelWithCovarianceStamped × List SteeringReport
  | _, 0 => ([], [], [])
  | i, Nat.succ fuel =>
    match Buffer.get Odometry.stamp (queryTime td.timestamp time_resolution i)
        td.buf_odometry with
    | none => ([], [], [])
    | some odometry =>
      match Buffer.get AccelWithCovarianceStamped.stamp
          (queryTime td.timestamp time_resolution i) td.buf_accel with
      | none => ([odometry], [], [])
      | some accel =>
        match Buffer.get SteeringReport.stamp (queryTime td.timestamp time_resolution i)
            td.buf_steer with
        | none => ([odometry], [accel], [])
        | some steer =>
          let rest := collectManualFrom td time_resolution (i + 1) fuel
          (odometry :: rest.1, accel :: rest.2.1, steer :: rest.2.2)

def collectManual (td : TrimmedData) (resample_num : ℕ) (time_resolution : ℚ) :
    List Odometry × List AccelWithCovarianceStamped × List SteeringReport :=
  collectManualFrom td time_resolution 0 resample_num

/-- The four metric series stored in `CommonData::values`. -/
structure MetricVals where
  lateral_accel : List ℝ
  longitudinal_jerk : List ℝ
  minimum_ttc : List ℝ
  travel_distance : List ℝ

/-- The first loop of `CommonData::calculate`: for each step `i` below the
bound, push the four per-step metrics in source order. -/
def calcLoop (latf jerkf ttcf travelf : ℕ → Except CppError ℝ) :
    ℕ → Except CppError MetricVals
  | 0 => Except.ok ⟨[], [], [], []⟩
  | Nat.succ k => do
    let acc ← calcLoop latf jerkf ttcf travelf k
    let lat ← latf k
    let jerk ← jerkf k
    let ttc ← ttcf k
    let dist ← travelf k
    Except.ok ⟨acc.lateral_accel ++ [lat], acc.longitudinal_jerk ++ [jerk],
      acc.minimum_ttc ++ [ttc], acc.travel_distance ++ [dist]⟩

/-- Model of `CommonData::calculate`'s metric-series construction: the loop runs for
`resample_num - 1` steps, then the final step is pushed with the jerk entry
fixed to `0.0`. -/
def calculate_values (resample_num : ℕ) (latf jerkf ttcf travelf : ℕ → Except CppError ℝ) :
    Except CppError MetricVals := do
  let acc ← calcLoop latf jerkf ttcf travelf (resample_num - 1)
  let lat ← latf (resample_num - 1)
  let ttc ← ttcf (resample_num - 1)
  let dist ← travelf (resample_num - 1)
  Except.ok ⟨acc.lateral_accel ++ [lat], acc.longitudinal_jerk ++ [0],
    acc.minimum_ttc ++ [ttc], acc.travel_distance ++ [dist]⟩

/-- Model of `std::clamp(value, lo, hi)`. -/
noncomputable def cppClamp (v lo hi : ℝ) : ℝ :=
  if v < lo then lo else if hi < v then hi else v

noncomputable def TIME_FACTOR : ℝ := 0.8

/-- The accumulation loop common to the four score functions: sum `f i` for
`i` below the bound. -/
def scoreLoop (f : ℕ → Except CppError ℝ) : ℕ → Except CppError ℝ
  | 0 => Except.ok 0
  | Nat.succ k => do
    let s ← scoreLoop f k
    let v ← f k
    Except.ok (s + v)

/-- Model of `CommonData::longitudinal_comfortability`: time-decayed absolute jerk,
clamped to `[0, 0.5]` and normalised penalising-upward, averaged. -/
noncomputable def longitudinal_comfortability (values : MetricVals) (resample_num : ℕ) :
    Except CppError ℝ := do
  let s ← scoreLoop (fun i => do
    let v ← listAt values.longitudinal_jerk i
    Except.ok ((0.5 - cppClamp (TIME_FACTOR ^ i * |v|) 0 0.5) / (0.5 - 0))) resample_num
  Except.ok (s / (resample_num : ℝ))

/-- Model of `CommonData::lateral_comfortability`. -/
noncomputable def lateral_comfortability (values : MetricVals) (resample_num : ℕ) :
    Except CppError ℝ := do
  let s ← scoreLoop (fun i => do
    let v ← listAt values.lateral_accel i
    Except.ok ((0.5 - cppClamp (TIME_FACTOR ^ i * |v|) 0 0.5) / (0.5 - 0))) resample_num
  Except.ok (s / (resample_num : ℝ))

/-- Model of `CommonData::efficiency`: time-decayed travel distance divided by `0.5`,
clamped to `[0, 20]` and normalised rewarding-upward, averaged. -/
noncomputable def efficiency (values : MetricVals) (resample_num : ℕ) :
    Except CppError ℝ := do
  let s ← scoreLoop (fun i => do
    let v ← listAt values.travel_distance i
    Except.ok (cppClamp (TIME_FACTOR ^ i * v / 0.5) 0 20 / (20 - 0))) resample_num
  Except.ok (s / (resample_num : ℝ))

/-- Model of `CommonData::safety`: time-decayed minimum TTC, clamped to `[0, 5]` and
normalised rewarding-upward, averaged. -/
noncomputable def safety (values : MetricVals) (resample_num : ℕ) :
    Except CppError ℝ := do
  let s ← scoreLoop (fun i => do
    let v ← listAt values.minimum_ttc i
    Except.ok (cppClamp (TIME_FACTOR ^ i * v) 0 5 / (5 - 0))) resample_num
  Except.ok (s / (resample_num : ℝ))

/-- The four named scores stored in `CommonData::scores`. -/
structure ScoreVals where
  lateral_comfortability : ℝ
  longitudinal_comfortability : ℝ
  efficiency : ℝ
  safety : ℝ

/-- Model of `CommonData::total`: weighted sum with all weights `1.0`. -/
noncomputable def ScoreVals.total (s : ScoreVals) : ℝ :=
  1 * s.lateral_comfortability + 1 * s.longitudinal_comfortability +
    1 * s.efficiency + 1 * s.safety

/-- The score-computation tail of `CommonData::calculate` (emplace order:
longitudinal, lateral, efficiency, safety). -/
noncomputable def calculate_scores (values : MetricVals) (resample_num : ℕ) :
    Except CppError ScoreVals := do
  let lon ← longitudinal_comfortability values resample_num
  let lat ← lateral_comfortability values resample_num
  let eff ← efficiency values resample_num
  let safe ← safety values resample_num
  Except.ok ⟨lat, lon, eff, safe⟩

/-- Model of `ManualDrivingData::lateral_accel`: turning radius
`wheel_base / tan(steering_tire_angle)`, lateral acceleration `v² / R`. -/
noncomputable def ManualDrivingData.lateral_accel (vi : VehicleInfo)
    (steer_history : List SteeringReport) (odometry_history : List Odometry) (idx : ℕ) :
    Except CppError ℝ := do
  let steer ← listAt steer_history idx
  let odometry ← listAt odometry_history idx
  let radius := vi.wheel_base_m / Real.tan steer.steering_tire_angle
  let speed := odometry.twist_linear.x
  Except.ok (speed * speed / radius)

/-- Model of `ManualDrivingData::longitudinal_jerk`: forward difference of linear
acceleration over the stamp difference in nanoseconds, scaled by `1e9`. -/
noncomputable def ManualDrivingData.longitudinal_jerk
    (accel_history : List AccelWithCovarianceStamped) (idx : ℕ) : Except CppError ℝ := do
  let a1 ← listAt accel_history (idx + 1)
  let a0 ← listAt accel_history idx
  let dt : ℝ := (a1.stamp : ℝ) - (a0.stamp : ℝ)
  Except.ok (1e9 * (a1.accel_linear.x - a0.accel_linear.x) / dt)

/-- Model of `ManualDrivingData::minimum_ttc`. -/
noncomputable def ManualDrivingData.minimum_ttc (objects_history : List PredictedObjects)
    (odometry_history : List Odometry) (idx : ℕ) : Except CppError ℝ := do
  let odometry ← listAt odometry_history idx
  let p_ego := odometry.pose
  let v_ego := velocityWorldOfOdometry odometry
  let objs ← listAt objects_history idx
  time_to_collision objs p_ego v_ego

/-- The summation loop of `ManualDrivingData::travel_distance`. -/
noncomputable def travelLoop (odometry_history : List Odometry) : ℕ → Except CppError ℝ
  | 0 => Except.ok 0
  | Nat.succ k => do
    let acc ← travelLoop odometry_history k
    let a ← listAt odometry_history (k + 1)
    let b ← listAt odometry_history k
    Except.ok (acc + calcDistance3d a.pose b.pose)

/-- Model of `ManualDrivingData::travel_distance`: cumulative 3-d distance between
consecutive odometry poses from step 0 to step `idx`. -/
noncomputable def ManualDrivingData.travel_distance (odometry_history : List Odometry)
    (idx : ℕ) : Except CppError ℝ :=
  travelLoop odometry_history idx

/-- The fully collected and calculated manual/log-driven data source. -/
structure ManualDrivingData where
  objects_history : List PredictedObjects
  odometry_history : List Odometry
  accel_history : List AccelWithCovarianceStamped
  steer_history : List SteeringReport
  values : MetricVals
  scores : ScoreVals

/-- The `ManualDrivingData` constructor: collect the objects history (from
the `CommonData` base constructor) and the odometry/acceleration/steering
histories (with silent `break` truncation), then run `calculate()`. -/
noncomputable def ManualDrivingData.make (td : TrimmedData) (vi : VehicleInfo)
    (resample_num : ℕ) (time_resolution : ℚ) : Except CppError ManualDrivingData :=
  let objects_history := collectObjects td resample_num time_resolution
  let h := collectManual td resample_num time_resolution
  let odometry_history := h.1
  let accel_history := h.2.1
  let steer_history := h.2.2
  do
    let values ← calculate_values resample_num
      (ManualDrivingData.lateral_accel vi steer_history odometry_history)
      (ManualDrivingData.longitudinal_jerk accel_history)
      (ManualDrivingData.minimum_ttc objects_history odometry_history)
      (ManualDrivingData.travel_distance odometry_history)
    let scores ← calculate_scores values resample_num
    Except.ok ⟨objects_history, odometry_history, accel_history, steer_history, values, scores⟩

/-- Model of `TrajectoryData::lateral_accel`. -/
noncomputable def TrajectoryData.lateral_accel (vi : VehicleInfo)
    (points : List TrajectoryPoint) (idx : ℕ) : Except CppError ℝ := do
  let p ← listAt points idx
  let radius := vi.wheel_base_m / Real.tan p.front_wheel_angle_rad
  let speed := p.longitudinal_velocity_mps
  Except.ok (speed * speed / radius)

/-- Model of `TrajectoryData::longitudinal_jerk`: forward difference of acceleration
divided by the hardcoded constant `0.5`. -/
noncomputable def TrajectoryData.longitudinal_jerk (points : List TrajectoryPoint)
    (idx : ℕ) : Except CppError ℝ := do
  let p1 ← listAt points (idx + 1)
  let p0 ← listAt points idx
  Except.ok ((p1.acceleration_mps2 - p0.acceleration_mps2) / 0.5)

/-- Model of `TrajectoryData::minimum_ttc`. -/
noncomputable def TrajectoryData.minimum_ttc (objects_history : List PredictedObjects)
    (points : List TrajectoryPoint) (idx : ℕ) : Except CppError ℝ := do
  let p ← listAt points idx
  let v_ego := velocityWorldOfTrajectoryPoint p
  let objs ← listAt objects_history idx
  time_to_collision objs p.pose v_ego

/-- Modelled from the spec: `autoware::motion_utils::calcSignedArcLength`
(external to this repository) — the cumulative arc length of the point
sequence from index 0 to `idx`, as the sum of planar Euclidean distances
between consecutive points. -/
noncomputable def calcSignedArcLength (points : List TrajectoryPoint) (idx : ℕ) : ℝ :=
  ((points.take (idx + 1)).zip (points.take (idx + 1)).tail).foldl
    (fun acc pq => acc + Real.sqrt ((pq.1.pose.position.x - pq.2.pose.position.x) ^ 2 +
      (pq.1.pose.position.y - pq.2.pose.position.y) ^ 2)) 0

/-- Model of `TrajectoryData::travel_distance`. -/
noncomputable def TrajectoryData.travel_distance (points : List TrajectoryPoint)
    (idx : ℕ) : Except CppError ℝ :=
  Except.ok (calcSignedArcLength points idx)

/-- A scored candidate trajectory. -/
structure TrajectoryData where
  tag : String
  points : List TrajectoryPoint
  objects_history : List PredictedObjects
  values : MetricVals
  scores : ScoreVals

/-- The `TrajectoryData` constructor: collect the objects history, then run
`calculate()` over the candidate's point sequence. -/
noncomputable def TrajectoryData.make (td : TrimmedData) (vi : VehicleInfo)
    (resample_num : ℕ) (time_resolution : ℚ) (tag : String)
    (points : List TrajectoryPoint) : Except CppError TrajectoryData :=
  let objects_history := collectObjects td resample_num time_resolution
  do
    let values ← calculate_values resample_num
      (TrajectoryData.lateral_accel vi points)
      (TrajectoryData.longitudinal_jerk points)
      (TrajectoryData.minimum_ttc objects_history points)
      (TrajectoryData.travel_distance points)
    let scores ← calculate_scores values resample_num
    Except.ok ⟨tag, points, objects_history, values, scores⟩

/-- Model of `TrajectoryData::total` (inherited `CommonData::total`). -/
noncomputable def TrajectoryData.total (d : TrajectoryData) : ℝ :=
  d.scores.total

/-- Lift a `std::optional` check that `throw`s `std::logic_error` on
`std::nullopt`. -/
def orThrow {α : Type} (o : Option α) (e : CppError) : Except CppError α :=
  match o with
  | some v => Except.ok v
  | none => Except.error e

/-- The candidate set after ranking. -/
structure SamplingTrajectoryData where
  init_odometory : Odometry
  init_accel : AccelWithCovarianceStamped
  data : List TrajectoryData

/-- The deterministic part of the `SamplingTrajectoryData` constructor, up
to (but not including) `std::sort`: fetch the seed odometry, acceleration
and trajectory (throwing `std::logic_error("data is not enough.")` when
missing), build the `"autoware"` candidate from the resampled current plan,
then one `"frenet"` candidate per externally sampled point sequence.

The trajectory resampling (`resampling`, built on external interpolation
utilities) and the Frenet sampler (`sampling`, built on the external
`frenet_planner`) are out-of-scope collaborators per the spec boundary and
are passed in as the functions `resampleF` and `samplerF`. -/
noncomputable def SamplingTrajectoryData.presort (td : TrimmedData) (vi : VehicleInfo)
    (resample_num : ℕ) (time_resolution : ℚ)
    (resampleF : Trajectory → List TrajectoryPoint)
    (samplerF : Trajectory → List (List TrajectoryPoint)) :
    Except CppError (Odometry × AccelWithCovarianceStamped × List TrajectoryData) := do
  let init_odometory ← orThrow (Buffer.get Odometry.stamp td.timestamp td.buf_odometry)
    CppError.logicError
  let init_accel ← orThrow
    (Buffer.get AccelWithCovarianceStamped.stamp td.timestamp td.buf_accel)
    CppError.logicError
  let trajectory ← orThrow (Buffer.get Trajectory.stamp td.timestamp td.buf_trajectory)
    CppError.logicError
  let auto_data ← TrajectoryData.make td vi resample_num time_resolution "autoware"
    (resampleF trajectory)
  let samples ← (samplerF trajectory).mapM
    (fun sample => TrajectoryData.make td vi resample_num time_resolution "frenet" sample)
  Except.ok (init_odometory, init_accel, auto_data :: samples)

/-- The guarantee `std::sort(first, last, comp)` gives for the comparator
`comp a b = key a > key b`: the output is a permutation of the input whose
adjacent elements satisfy `¬ comp(next, prev)`, i.e. non-increasing `key`.
The C++ standard guarantees nothing further — in particular not stability. -/
def cppSortRel {α : Type} (key : α → ℝ) (input output : List α) : Prop :=
  input.Perm output ∧ output.Chain' (fun a b => key b ≤ key a)

/-- The full `SamplingTrajectoryData` constructor as a relation: the stored
candidate list is some `std::sort`-admissible reordering of the generated
candidates by descending total score. -/
noncomputable def SamplingTrajectoryData.Builds (td : TrimmedData) (vi : VehicleInfo)
    (resample_num : ℕ) (time_resolution : ℚ)
    (resampleF : Trajectory → List TrajectoryPoint)
    (samplerF : Trajectory → List (List TrajectoryPoint))
    (out : SamplingTrajectoryData) : Prop :=
  ∃ pre, SamplingTrajectoryData.presort td vi resample_num time_resolution resampleF
      samplerF = Except.ok (out.init_odometory, out.init_accel, pre) ∧
    cppSortRel TrajectoryData.total pre out.data

/-- Model of `SamplingTrajectoryData::best`: `data.front()`, undefined on an empty
candidate list. -/
def SamplingTrajectoryData.best (s : SamplingTrajectoryData) : Except CppError TrajectoryData :=
  match s.data with
  | [] => Except.error CppError.undefinedBehaviour
  | d :: _ => Except.ok d

/-- Model of `SamplingTrajectoryData::autoware`: dereference of
`std::find_if(tag == "autoware")`, undefined when no match exists. -/
def SamplingTrajectoryData.autoware (s : SamplingTrajectoryData) :
    Except CppError TrajectoryData :=
  match s.data.find? (fun d => d.tag == "autoware") with
  | some d => Except.ok d
  | none => Except.error CppError.undefinedBehaviour

/-- Follows the spec's words, for comparison with
`TrajectoryData.longitudinal_jerk`: the forward difference of longitudinal
acceleration divided by the elapsed time between the two samples, which for
the trajectory-driven source is the configured `time_resolution`. -/
noncomputable def trajectory_jerk_spec (points : List TrajectoryPoint)
    (time_resolution : ℚ) (idx : ℕ) : Except CppError ℝ := do
  let p1 ← listAt points (idx + 1)
  let p0 ← listAt points idx
  Except.ok ((p1.acceleration_mps2 - p0.acceleration_mps2) / (time_resolution : ℝ))

/-- Identity orientation. -/
def idRot : Vec3 → Vec3 := fun v => v

/-- Ego pose at the origin for the receding-object input. -/
noncomputable def recPoseEgo : Pose := ⟨⟨0, 0, 0⟩, idRot⟩

/-- Stationary ego velocity for the receding-object input. -/
noncomputable def recVEgo : Vec3 := ⟨0, 0, 0⟩

/-- A single predicted object 1 m ahead of the ego, moving straight away at
1 m/s, so its closing rate is negative and its computed distance/velocity
ratio is negative. -/
noncomputable def recObject : PredictedObject := ⟨⟨⟨⟨1, 0, 0⟩, idRot⟩, ⟨1, 0, 0⟩⟩⟩

/-- An object-set message holding only the receding object. -/
noncomputable def recObjectsMsg : PredictedObjects := ⟨1, [recObject]⟩

/-- A snapshot whose buffers are all empty. -/
def emptyTrimmedData : TrimmedData := ⟨⟨[]⟩, ⟨[]⟩, ⟨[]⟩, ⟨[]⟩, ⟨[]⟩, ⟨[]⟩, 0⟩

/-- A vehicle with a 2.79 m wheel base. -/
noncomputable def vi1 : VehicleInfo := ⟨2.79⟩

/-- One odometry record: at rest at the origin, stamped 1 ns. -/
noncomputable def oneOdo : Odometry := ⟨1, ⟨⟨0, 0, 0⟩, idRot⟩, ⟨0, 0, 0⟩⟩

/-- One acceleration record: zero acceleration, stamped 1 ns. -/
noncomputable def oneAccel : AccelWithCovarianceStamped := ⟨1, ⟨0, 0, 0⟩⟩

/-- One steering record: zero angle, stamped 1 ns. -/
noncomputable def oneSteer : SteeringReport := ⟨1, 0⟩

/-- One object-set record with no objects, stamped 1 ns. -/
def oneObjects : PredictedObjects := ⟨1, []⟩

/-- One trajectory point at rest with zero wheel angle. -/
noncomputable def onePoint : TrajectoryPoint := ⟨⟨⟨0, 0, 0⟩, idRot⟩, 0, 0, 0⟩

/-- One planned-trajectory record, stamped 1 ns. -/
noncomputable def oneTrajectory : Trajectory := ⟨1, [onePoint]⟩

/-- A minimal snapshot with one record in every stream needed for a
single-step (`resample_num = 1`) evaluation. -/
noncomputable def oneTD : TrimmedData :=
  ⟨⟨[]⟩, ⟨[oneOdo]⟩, ⟨[oneObjects]⟩, ⟨[oneAccel]⟩, ⟨[oneSteer]⟩, ⟨[oneTrajectory]⟩, 0⟩

/-- The expected `"autoware"` candidate built from `oneTD`. -/
noncomputable def oneAutoTD : TrajectoryData :=
  ⟨"autoware", [onePoint], [oneObjects], ⟨[0], [0], [DBL_MAX], [0]⟩, ⟨1, 1, 0, 1⟩⟩

/-- The expected candidate set built from `oneTD` with an empty Frenet
sampler output. -/
noncomputable def oneSTD : SamplingTrajectoryData := ⟨oneOdo, oneAccel, [oneAutoTD]⟩

/-- Straight-line scenario stamps: records every 0.5 s. -/
def scnStamp (j : ℕ) : ℤ := 500000000 * (j : ℤ)

/-- Straight-line scenario odometry: constant 10 m/s along x, poses 5 m
apart. -/
noncomputable def scnOdo (j : ℕ) : Odometry :=
  ⟨scnStamp j, ⟨⟨5 * (j : ℝ), 0, 0⟩, idRot⟩, ⟨10, 0, 0⟩⟩

/-- Straight-line scenario acceleration: identically zero (zero jerk). -/
noncomputable def scnAccel (j : ℕ) : AccelWithCovarianceStamped :=
  ⟨scnStamp j, ⟨0, 0, 0⟩⟩

/-- Straight-line scenario steering: identically zero. -/
noncomputable def scnSteer (j : ℕ) : SteeringReport := ⟨scnStamp j, 0⟩

/-- Straight-line scenario predicted objects: none. -/
def scnObjects (j : ℕ) : PredictedObjects := ⟨scnStamp j, []⟩

/-- The straight-line no-obstacle snapshot: six records per stream at 0.5 s
spacing starting at the logical timestamp 0, enough for `resample_num = 5`
(the strict `>` in `Buffer::get` skips the record at the query time
itself, so the collected histories are records 1..5). -/
noncomputable def scnTD : TrimmedData :=
  ⟨⟨[]⟩, ⟨[scnOdo 0, scnOdo 1, scnOdo 2, scnOdo 3, scnOdo 4, scnOdo 5]⟩,
    ⟨[scnObjects 0, scnObjects 1, scnObjects 2, scnObjects 3, scnObjects 4, scnObjects 5]⟩,
    ⟨[scnAccel 0, scnAccel 1, scnAccel 2, scnAccel 3, scnAccel 4, scnAccel 5]⟩,
    ⟨[scnSteer 0, scnSteer 1, scnSteer 2, scnSteer 3, scnSteer 4, scnSteer 5]⟩, ⟨[]⟩, 0⟩

/-- The collected odometry history of the straight-line scenario. -/
noncomputable def scnOdos : List Odometry :=
  [scnOdo 1, scnOdo 2, scnOdo 3, scnOdo 4, scnOdo 5]

/-- The collected acceleration history of the straight-line scenario. -/
noncomputable def scnAccels : List AccelWithCovarianceStamped :=
  [scnAccel 1, scnAccel 2, scnAccel 3, scnAccel 4, scnAccel 5]

/-- The collected steering history of the straight-line scenario. -/
noncomputable def scnSteers : List SteeringReport :=
  [scnSteer 1, scnSteer 2, scnSteer 3, scnSteer 4, scnSteer 5]

/-- The collected predicted-object history of the straight-line scenario. -/
def scnObjs : List PredictedObjects :=
  [scnObjects 1, scnObjects 2, scnObjects 3, scnObjects 4, scnObjects 5]

/-- The metric series the straight-line scenario produces. -/
noncomputable def scnValues : MetricVals :=
  ⟨[0, 0, 0, 0, 0], [0, 0, 0, 0, 0], [DBL_MAX, DBL_MAX, DBL_MAX, DBL_MAX, DBL_MAX],
    [0, 5, 10, 15, 20]⟩

/-- The scores the straight-line scenario produces. -/
noncomputable def scnScores : ScoreVals := ⟨1, 1, 1642 / 3125, 1⟩

/-- The manual data source the straight-line scenario produces. -/
noncomputable def scnResult : ManualDrivingData :=
  ⟨scnObjs, scnOdos, scnAccels, scnSteers, scnValues, scnScores⟩

/-- Two trajectory points whose configured sample spacing is 1 s but whose
accelerations differ by 1 m/s²; used against the hardcoded `0.5` divisor. -/
noncomputable def jerkPts : List TrajectoryPoint :=
  [⟨⟨⟨0, 0, 0⟩, idRot⟩, 0, 0, 0⟩, ⟨⟨⟨0, 0, 0⟩, idRot⟩, 0, 1, 0⟩]

/-- An acceleration record at 0 ns with zero acceleration. -/
noncomputable def jerkAccel0 : AccelWithCovarianceStamped := ⟨0, ⟨0, 0, 0⟩⟩

/-- An acceleration record 2 s later with 3 m/s² longitudinal accel. -/
noncomputable def jerkAccel1 : AccelWithCovarianceStamped := ⟨2000000000, ⟨3, 0, 0⟩⟩

theorem except_bind_ok {ε α β : Type} {e : Except ε α} {f : α → Except ε β} {b : β}
    (h : e.bind f = Except.ok b) : ∃ a, e = Except.ok a ∧ f a = Except.ok b := by
  cases e with
  | ok a => exact ⟨a, rfl, h⟩
  | error err => simp [Except.bind] at h

theorem listAt_ok_iff {α : Type} {xs : List α} {i : ℕ} {v : α} :
    listAt xs i = Except.ok v ↔ xs.get? i = some v := by
  unfold listAt
  cases h : xs.get? i <;> simp

theorem listAt_ok_lt {α : Type} {xs : List α} {i : ℕ} {v : α}
    (h : listAt xs i = Except.ok v) : i < xs.length := by
  rw [listAt_ok_iff] at h
  exact List.get?_eq_some.mp h |>.1

theorem find?_min_of_pairwise {α : Type} (ts : α → ℤ) (p : α → Bool) :
    ∀ (l : List α), l.Pairwise (fun a b => ts a ≤ ts b) →
      ∀ r, l.find? p = some r → ∀ m ∈ l, p m = true → ts r ≤ ts m := by
  intro l
  induction l with
  | nil => intro _ r hr; simp at hr
  | cons a l ih =>
    intro hpw r hr m hm hpm
    rcases List.pairwise_cons.mp hpw with ⟨ha, hl⟩
    by_cases hpa : p a = true
    · rw [List.find?_cons_of_pos _ hpa] at hr
      cases hr
      rcases List.mem_cons.mp hm with hma | hml
      · subst hma; exact le_refl _
      · exact ha m hml
    · rw [List.find?_cons_of_neg _ hpa] at hr
      rcases List.mem_cons.mp hm with hma | hml
      · subst hma; exact absurd hpm hpa
      · exact ih hl r hr m hml hpm

/-- Claim C9: for append sequences with non-decreasing timestamps, eviction
at `t` removes exactly the records with timestamp `< t` and preserves the
relative order of the remainder, and a subsequent `query_after(t')`
(`Buffer::get(t')`) returns the earliest remaining record with timestamp
strictly greater than `t'`, or none when no such record exists. -/
theorem c9_buffer_evict_then_query {α : Type} (ts : α → ℤ) (t t' : ℤ) (xs : List α)
    (h : xs.Pairwise (fun a b => ts a ≤ ts b)) :
    ((Buffer.remove_old_data ts t ⟨xs⟩).msgs.Sublist xs) ∧
    (∀ m, m ∈ (Buffer.remove_old_data ts t ⟨xs⟩).msgs ↔ m ∈ xs ∧ t ≤ ts m) ∧
    (∀ r, Buffer.get ts t' (Buffer.remove_old_data ts t ⟨xs⟩) = some r →
      r ∈ (Buffer.remove_old_data ts t ⟨xs⟩).msgs ∧ t' < ts r ∧
        ∀ m ∈ (Buffer.remove_old_data ts t ⟨xs⟩).msgs, t' < ts m → ts r ≤ ts m) ∧
    (Buffer.get ts t' (Buffer.remove_old_data ts t ⟨xs⟩) = none →
      ∀ m ∈ (Buffer.remove_old_data ts t ⟨xs⟩).msgs, ts m ≤ t') := by
  have hsub : (Buffer.remove_old_data ts t ⟨xs⟩).msgs.Sublist xs := by
    unfold Buffer.remove_old_data
    exact List.filter_sublist xs
  have hpw : (Buffer.remove_old_data ts t ⟨xs⟩).msgs.Pairwise (fun a b => ts a ≤ ts b) :=
    h.sublist hsub
  refine ⟨hsub, ?_, ?_, ?_⟩
  · intro m
    unfold Buffer.remove_old_data
    simp [List.mem_filter, not_lt]
  · intro r hr
    have hmem : r ∈ (Buffer.remove_old_data ts t ⟨xs⟩).msgs :=
      List.mem_of_find?_eq_some hr
    have hpr : t' < ts r := by
      have := List.find?_some hr
      simpa using this
    refine ⟨hmem, hpr, ?_⟩
    intro m hm hml
    exact find?_min_of_pairwise ts _ _ hpw r hr m hm (by simpa using hml)
  · intro hn m hm
    have := List.find?_eq_none.mp hn m hm
    simpa [not_lt] using this

/-- Claim C9 witness: a concrete sorted buffer, evicted at 5 and queried
after 5, returns the record stamped 9. -/
theorem c9_buffer_evict_then_query_witness :
    ((Buffer.remove_old_data Prod.fst 5 (⟨[((0:ℤ), (10:ℤ)), (5, 11), (9, 12)]⟩ :
        Buffer (ℤ × ℤ))).msgs.Sublist [((0:ℤ), (10:ℤ)), (5, 11), (9, 12)]) ∧
    (∀ r, Buffer.get Prod.fst 5
        (Buffer.remove_old_data Prod.fst 5
          (⟨[((0:ℤ), (10:ℤ)), (5, 11), (9, 12)]⟩ : Buffer (ℤ × ℤ))) = some r →
      r ∈ (Buffer.remove_old_data Prod.fst 5
        (⟨[((0:ℤ), (10:ℤ)), (5, 11), (9, 12)]⟩ : Buffer (ℤ × ℤ))).msgs ∧ 5 < r.1 ∧
        ∀ m ∈ (Buffer.remove_old_data Prod.fst 5
          (⟨[((0:ℤ), (10:ℤ)), (5, 11), (9, 12)]⟩ : Buffer (ℤ × ℤ))).msgs,
          5 < m.1 → r.1 ≤ m.1) := by
  have h := c9_buffer_evict_then_query Prod.fst 5 5
    [((0:ℤ), (10:ℤ)), (5, 11), (9, 12)] (by decide)
  exact ⟨h.1, h.2.2.1⟩

/-- Claim C5 counterexample: the argumentless `Buffer::get` on an empty
buffer is undefined behaviour (`std::vector::front` with no emptiness
check), not the explicit `EmptyBufferError` the claim requires. -/
theorem c5_front_empty_counterexample :
    Buffer.front (⟨[]⟩ : Buffer Odometry) = Except.error CppError.undefinedBehaviour ∧
    Buffer.front (⟨[]⟩ : Buffer Odometry) ≠ Except.error CppError.emptyBuffer := by
  constructor
  · rfl
  · intro h
    simp [Buffer.front] at h

/-- Claim C5 amended: when the buffer is non-empty, `front()` returns the
head, which under non-decreasing append order is the earliest record; when
the buffer is empty, the unchecked `std::vector::front` access is undefined
behaviour (no explicit `EmptyBufferError` exists in the code). -/
theorem c5_front_earliest_or_undefined {α : Type} (ts : α → ℤ) (b : Buffer α)
    (h : b.msgs.Pairwise (fun a b => ts a ≤ ts b)) :
    (b.msgs = [] → Buffer.front b = Except.error CppError.undefinedBehaviour) ∧
    (∀ m, b.msgs.head? = some m →
      Buffer.front b = Except.ok m ∧ ∀ x ∈ b.msgs, ts m ≤ ts x) := by
  constructor
  · intro he
    cases b with
    | mk msgs => cases msgs with
      | nil => rfl
      | cons a l => simp at he
  · intro m hm
    cases b with
    | mk msgs => cases msgs with
      | nil => simp at hm
      | cons a l =>
        simp at hm
        subst hm
        refine ⟨rfl, ?_⟩
        intro x hx
        rcases List.mem_cons.mp hx with hxa | hxl
        · subst hxa; exact le_refl _
        · exact (List.pairwise_cons.mp h).1 x hxl

/-- Claim C5 witness: on a concrete sorted two-record buffer, `front()`
returns the record stamped 1, whose stamp is minimal. -/
theorem c5_front_earliest_witness :
    Buffer.front (⟨[((1:ℤ), (0:ℤ)), (2, 0)]⟩ : Buffer (ℤ × ℤ)) = Except.ok (1, 0) ∧
    ∀ x ∈ [((1:ℤ), (0:ℤ)), (2, 0)], (1:ℤ) ≤ x.1 := by
  have h := c5_front_earliest_or_undefined Prod.fst
    (⟨[((1:ℤ), (0:ℤ)), (2, 0)]⟩ : Buffer (ℤ × ℤ)) (by decide)
  exact ⟨(h.2 (1, 0) rfl).1, (h.2 (1, 0) rfl).2⟩

/-- Claim C1 counterexample: for three candidates generated in order
`A, B, C` with totals `2.1, 3.4, 3.4`, the output `[C, B, A]` also satisfies
the `std::sort` contract used by the `SamplingTrajectoryData` constructor
(permutation, non-increasing key), yet differs from the stable order
`[B, C, A]` the claim requires — `std::sort` does not guarantee
stability. -/
theorem c1_ranking_stability_counterexample :
    cppSortRel Prod.snd [((0:ℕ), (2.1:ℝ)), (1, 3.4), (2, 3.4)]
      [(2, 3.4), (1, 3.4), (0, 2.1)] ∧
    ([((2:ℕ), (3.4:ℝ)), (1, 3.4), (0, 2.1)]) ≠ [(1, 3.4), (2, 3.4), (0, 2.1)] := by
  refine ⟨⟨?_, ?_⟩, ?_⟩
  · exact (List.reverse_perm [((0:ℕ), (2.1:ℝ)), (1, 3.4), (2, 3.4)]).symm
  · refine List.chain'_cons.mpr ⟨by norm_num, List.chain'_cons.mpr ⟨by norm_num, ?_⟩⟩
    exact List.chain'_singleton _
  · intro h
    injection h with h1 _
    have h2 : (2:ℕ) = 1 := congrArg Prod.fst h1
    omega

/-- Claim C1 amended: for the scenario with totals `2.1, 3.4, 3.4`, every
output the `std::sort` contract admits is ordered by non-increasing total —
the total sequence is forced to `[3.4, 3.4, 2.1]` — but the order among the
two tied candidates is not determined (no stability guarantee). -/
theorem c1_ranking_descending_totals (ys : List (ℕ × ℝ))
    (h : cppSortRel Prod.snd [((0:ℕ), (2.1:ℝ)), (1, 3.4), (2, 3.4)] ys) :
    ys.map Prod.snd = [3.4, 3.4, 2.1] := by
  rcases h with ⟨hperm, hchain⟩
  have hmap : List.Perm ([(2.1:ℝ), 3.4, 3.4]) (ys.map Prod.snd) :=
    hperm.map Prod.snd
  have hchainm : (ys.map Prod.snd).Chain' (fun a b : ℝ => b ≤ a) := by
    rw [List.chain'_map]
    exact hchain
  haveI : IsAntisymm ℝ (fun a b : ℝ => b ≤ a) := ⟨fun a b h1 h2 => le_antisymm h2 h1⟩
  haveI : Trans (fun a b : ℝ => b ≤ a) (fun a b : ℝ => b ≤ a) (fun a b : ℝ => b ≤ a) :=
    ⟨fun h1 h2 => le_trans h2 h1⟩
  have hsorted : (ys.map Prod.snd).Pairwise (fun a b : ℝ => b ≤ a) :=
    List.chain'_iff_pairwise.mp hchainm
  have hsorted2 : ([(3.4:ℝ), 3.4, 2.1]).Pairwise (fun a b : ℝ => b ≤ a) := by
    refine List.pairwise_cons.mpr ⟨?_, List.pairwise_cons.mpr ⟨?_, ?_⟩⟩
    · intro b hb
      rcases List.mem_cons.mp hb with h1 | h1
      · rw [h1]
      · simp only [List.mem_singleton] at h1; rw [h1]; norm_num
    · intro b hb; simp only [List.mem_singleton] at hb; rw [hb]; norm_num
    · simp
  have hpermf : List.Perm ([(3.4:ℝ), 3.4, 2.1]) (ys.map Prod.snd) := by
    refine List.Perm.trans ?_ hmap
    exact List.reverse_perm [(2.1:ℝ), 3.4, 3.4]
  exact (List.eq_of_perm_of_sorted hpermf hsorted2 hsorted).symm

/-- Claim C1 witness: the stable order `[B, C, A]` is one admissible output,
and its total sequence is `[3.4, 3.4, 2.1]`. -/
theorem c1_ranking_descending_totals_witness :
    ([((1:ℕ), (3.4:ℝ)), (2, 3.4), (0, 2.1)]).map Prod.snd = [3.4, 3.4, 2.1] := by
  refine c1_ranking_descending_totals _ ⟨?_, ?_⟩
  · exact (List.perm_append_singleton ((0:ℕ), (2.1:ℝ)) [(1, 3.4), (2, 3.4)]).symm
  · refine List.chain'_cons.mpr ⟨by norm_num, List.chain'_cons.mpr ⟨by norm_num, ?_⟩⟩
    exact List.chain'_singleton _

theorem ttc_recObject_eval : ttcOfObject recObject recPoseEgo recVEgo = -1 := by
  unfold ttcOfObject recObject recPoseEgo recVEgo velocityWorldOfKinematics transformPoint idRot
  simp only [Vec3.sub, Vec3.add, Vec3.dot, Vec3.normalized, Vec3.length]
  norm_num [Real.sqrt_one]

theorem time_to_collision_recObjects :
    time_to_collision recObjectsMsg recPoseEgo recVEgo =
      Except.error CppError.undefinedBehaviour := by
  unfold time_to_collision recObjectsMsg
  simp only [List.isEmpty_cons, List.length_cons, List.length_nil, List.replicate,
    List.map_cons, List.map_nil, ttc_recObject_eval]
  have h0 : (decide ((0:ℝ) < 1e-3)) = true := decide_eq_true (by norm_num)
  have h1 : (decide ((-1:ℝ) < 1e-3)) = true := decide_eq_true (by norm_num)
  simp [List.filter_cons, h0, h1]

/-- Claim C2: the empty-object-set branch does return the largest
representable double, but when every computed ratio is discarded by the
`1e-3` filter (here: a single receding object, ratio `-1`), the final
`front()` runs on an empty vector — undefined behaviour, not the claimed
"largest representable double" return.  The claim's safety assertion is
false on the code. -/
theorem c2_ttc_filtered_front_undefined :
    (∀ (s : ℤ) (p_ego : Pose) (v_ego : Vec3),
      time_to_collision ⟨s, []⟩ p_ego v_ego = Except.ok DBL_MAX) ∧
    time_to_collision recObjectsMsg recPoseEgo recVEgo =
      Except.error CppError.undefinedBehaviour ∧
    time_to_collision recObjectsMsg recPoseEgo recVEgo ≠ Except.ok DBL_MAX := by
  refine ⟨fun s p_ego v_ego => rfl, time_to_collision_recObjects, ?_⟩
  rw [time_to_collision_recObjects]
  intro h
  simp at h

theorem collectObjectsFrom_length_le (td : TrimmedData) (res : ℚ) :
    ∀ (fuel i : ℕ), (collectObjectsFrom td res i fuel).length ≤ fuel := by
  intro fuel
  induction fuel with
  | zero => intro i; simp [collectObjectsFrom]
  | succ k ih =>
    intro i
    unfold collectObjectsFrom
    cases Buffer.get PredictedObjects.stamp (queryTime td.timestamp res i) td.buf_objects with
    | none => simp
    | some objs => simpa using ih (i + 1)

theorem collectManualFrom_shape (td : TrimmedData) (res : ℚ) :
    ∀ (fuel i : ℕ),
      (collectManualFrom td res i fuel).2.2.length ≤
        (collectManualFrom td res i fuel).2.1.length ∧
      (collectManualFrom td res i fuel).2.1.length ≤
        (collectManualFrom td res i fuel).1.length ∧
      (collectManualFrom td res i fuel).1.length ≤ fuel := by
  intro fuel
  induction fuel with
  | zero => intro i; simp [collectManualFrom]
  | succ k ih =>
    intro i
    unfold collectManualFrom
    cases Buffer.get Odometry.stamp (queryTime td.timestamp res i) td.buf_odometry with
    | none => simp
    | some odometry =>
      cases Buffer.get AccelWithCovarianceStamped.stamp (queryTime td.timestamp res i)
          td.buf_accel with
      | none => simp
      | some accel =>
        cases Buffer.get SteeringReport.stamp (queryTime td.timestamp res i) td.buf_steer with
        | none => simp
        | some steer =>
          have h := ih (i + 1)
          simp only [List.length_cons]
          omega

theorem manual_lateral_ok_lt {vi : VehicleInfo} {st : List SteeringReport}
    {od : List Odometry} {idx : ℕ} {v : ℝ}
    (h : ManualDrivingData.lateral_accel vi st od idx = Except.ok v) :
    idx < st.length ∧ idx < od.length := by
  unfold ManualDrivingData.lateral_accel at h
  obtain ⟨s, hs, h⟩ := except_bind_ok h
  obtain ⟨o, ho, _⟩ := except_bind_ok h
  exact ⟨listAt_ok_lt hs, listAt_ok_lt ho⟩

theorem manual_ttc_ok_lt {objs : List PredictedObjects} {od : List Odometry}
    {idx : ℕ} {v : ℝ}
    (h : ManualDrivingData.minimum_ttc objs od idx = Except.ok v) :
    idx < od.length ∧ idx < objs.length := by
  unfold ManualDrivingData.minimum_ttc at h
  obtain ⟨o, ho, h⟩ := except_bind_ok h
  obtain ⟨ob, hob, _⟩ := except_bind_ok h
  exact ⟨listAt_ok_lt ho, listAt_ok_lt hob⟩

theorem calculate_values_ok_inv {n : ℕ} {latf jerkf ttcf travelf : ℕ → Except CppError ℝ}
    {mv : MetricVals}
    (h : calculate_values n latf jerkf ttcf travelf = Except.ok mv) :
    ∃ acc lat ttc dist, calcLoop latf jerkf ttcf travelf (n - 1) = Except.ok acc ∧
      latf (n - 1) = Except.ok lat ∧ ttcf (n - 1) = Except.ok ttc ∧
      travelf (n - 1) = Except.ok dist ∧
      mv = ⟨acc.lateral_accel ++ [lat], acc.longitudinal_jerk ++ [0],
        acc.minimum_ttc ++ [ttc], acc.travel_distance ++ [dist]⟩ := by
  unfold calculate_values at h
  obtain ⟨acc, hacc, h⟩ := except_bind_ok h
  obtain ⟨lat, hlat, h⟩ := except_bind_ok h
  obtain ⟨ttc, httc, h⟩ := except_bind_ok h
  obtain ⟨dist, hdist, h⟩ := except_bind_ok h
  simp only [Except.ok.injEq] at h
  exact ⟨acc, lat, ttc, dist, hacc, hlat, httc, hdist, h.symm⟩

theorem manual_make_ok_inv {td : TrimmedData} {vi : VehicleInfo} {n : ℕ} {res : ℚ}
    {d : ManualDrivingData} (h : ManualDrivingData.make td vi n res = Except.ok d) :
    d.objects_history = collectObjects td n res ∧
    d.odometry_history = (collectManual td n res).1 ∧
    d.accel_history = (collectManual td n res).2.1 ∧
    d.steer_history = (collectManual td n res).2.2 ∧
    calculate_values n
      (ManualDrivingData.lateral_accel vi (collectManual td n res).2.2
        (collectManual td n res).1)
      (ManualDrivingData.longitudinal_jerk (collectManual td n res).2.1)
      (ManualDrivingData.minimum_ttc (collectObjects td n res) (collectManual td n res).1)
      (ManualDrivingData.travel_distance (collectManual td n res).1) =
      Except.ok d.values := by
  simp only [ManualDrivingData.make] at h
  obtain ⟨values, hv, h⟩ := except_bind_ok h
  obtain ⟨scores, hsc, h⟩ := except_bind_ok h
  simp only [Except.ok.injEq] at h
  subst h
  exact ⟨rfl, rfl, rfl, rfl, hv⟩

/-- Claim C3 amended: when fewer than `resample_num` synchronized samples
can be collected (the steering history of the break-truncated manual
collection loop, or the objects history, ends up shorter than
`resample_num`), building the manual data source fails with some error —
the checked `.at` indexing inside `calculate()` — and construction never
succeeds with truncated histories: success forces every history to hold
exactly `resample_num` entries.  There is, however, no dedicated
`InsufficientHistoryError` anywhere in the code. -/
theorem c3_manual_short_history_fails (td : TrimmedData) (vi : VehicleInfo) (n : ℕ)
    (res : ℚ) (hn : 1 ≤ n)
    (hshort : (collectManual td n res).2.2.length < n ∨
      (collectObjects td n res).length < n) :
    (∃ e, ManualDrivingData.make td vi n res = Except.error e) ∧
    (∀ d, ManualDrivingData.make td vi n res = Except.ok d →
      d.odometry_history.length = n ∧ d.accel_history.length = n ∧
      d.steer_history.length = n ∧ d.objects_history.length = n) := by
  have hfull : ∀ d, ManualDrivingData.make td vi n res = Except.ok d →
      d.odometry_history.length = n ∧ d.accel_history.length = n ∧
      d.steer_history.length = n ∧ d.objects_history.length = n := by
    intro d hd
    obtain ⟨hobj, hod, hac, hst, hcv⟩ := manual_make_ok_inv hd
    obtain ⟨acc, lat, ttc, dist, hacc, hlat, httc, hdist, hmv⟩ := calculate_values_ok_inv hcv
    have h1 := manual_lateral_ok_lt hlat
    have h2 := manual_ttc_ok_lt httc
    have shape := collectManualFrom_shape td res n 0
    have objle := collectObjectsFrom_length_le td res n 0
    rw [hobj, hod, hac, hst]
    unfold collectManual collectObjects
    unfold collectManual at h1 h2
    unfold collectObjects at h2
    omega
  refine ⟨?_, hfull⟩
  cases hmk : ManualDrivingData.make td vi n res with
  | error e => exact ⟨e, rfl⟩
  | ok d =>
    exfalso
    have hlen := hfull d hmk
    obtain ⟨hobj, _, _, hst, _⟩ := manual_make_ok_inv hmk
    rcases hshort with hs | hs
    · rw [← hst] at hs; omega
    · rw [← hobj] at hs; omega

/-- Claim C3 counterexample: on an empty snapshot with `resample_num = 1`,
construction fails with the out-of-range error of checked indexing, which
is not the dedicated `InsufficientHistoryError` the claim names. -/
theorem c3_error_kind_counterexample :
    ManualDrivingData.make emptyTrimmedData vi1 1 (1 / 2) =
      Except.error CppError.outOfRange ∧
    (Except.error CppError.outOfRange : Except CppError ManualDrivingData) ≠
      Except.error CppError.insufficientHistory := by
  constructor
  · rfl
  · intro h
    simp at h

/-- Claim C3 witness: the amended theorem applied to the empty snapshot with
`resample_num = 1`. -/
theorem c3_manual_short_history_fails_witness :
    (∃ e, ManualDrivingData.make emptyTrimmedData vi1 1 (1 / 2) = Except.error e) ∧
    (∀ d, ManualDrivingData.make emptyTrimmedData vi1 1 (1 / 2) = Except.ok d →
      d.odometry_history.length = 1 ∧ d.accel_history.length = 1 ∧
      d.steer_history.length = 1 ∧ d.objects_history.length = 1) :=
  c3_manual_short_history_fails emptyTrimmedData vi1 1 (1 / 2) (le_refl 1)
    (Or.inl (by norm_num [collectManual, collectManualFrom, emptyTrimmedData, Buffer.get]))

theorem except_ok_bind {ε α β : Type} (a : α) (f : α → Except ε β) :
    (Except.ok a >>= f : Except ε β) = f a := rfl

/-- Claim C6 counterexample: for two trajectory points at a configured
`time_resolution` of 1 s whose accelerations differ by 1 m/s², the code's
trajectory-source jerk is `(1 - 0) / 0.5 = 2` (hardcoded divisor), while the
claimed forward-difference-over-elapsed-time value is `1`. -/
theorem c6_trajectory_jerk_hardcoded_counterexample :
    TrajectoryData.longitudinal_jerk jerkPts 0 = Except.ok 2 ∧
    trajectory_jerk_spec jerkPts 1 0 = Except.ok 1 ∧
    (Except.ok (2:ℝ) : Except CppError ℝ) ≠ Except.ok 1 := by
  refine ⟨?_, ?_, ?_⟩
  · simp [TrajectoryData.longitudinal_jerk, jerkPts, listAt, except_ok_bind]
    norm_num
  · simp [trajectory_jerk_spec, jerkPts, listAt, except_ok_bind]
  · intro h
    simp only [Except.ok.injEq] at h
    norm_num at h

/-- Claim C6 amended: the manual/log-driven source does compute jerk as the
acceleration forward difference divided by the elapsed stamp time converted
from nanoseconds to seconds; the trajectory-driven source instead divides
by the hardcoded constant `0.5`, which agrees with the claim only when its
sample spacing (`time_resolution`) is exactly 0.5 s. -/
theorem c6_jerk_forward_difference (accel_history : List AccelWithCovarianceStamped)
    (idx : ℕ) (a1 a0 : AccelWithCovarianceStamped)
    (h1 : listAt accel_history (idx + 1) = Except.ok a1)
    (h0 : listAt accel_history idx = Except.ok a0)
    (hdt : (a1.stamp : ℝ) ≠ (a0.stamp : ℝ)) :
    ManualDrivingData.longitudinal_jerk accel_history idx =
      Except.ok ((a1.accel_linear.x - a0.accel_linear.x) /
        (((a1.stamp : ℝ) - (a0.stamp : ℝ)) / 1e9)) ∧
    ∀ (points : List TrajectoryPoint) (res : ℚ), (res : ℝ) = 0.5 →
      TrajectoryData.longitudinal_jerk points idx = trajectory_jerk_spec points res idx := by
  constructor
  · unfold ManualDrivingData.longitudinal_jerk
    rw [h1]
    rw [except_ok_bind]
    rw [h0]
    rw [except_ok_bind]
    rw [div_div_eq_mul_div, mul_comm]
  · intro points res hres
    unfold TrajectoryData.longitudinal_jerk trajectory_jerk_spec
    cases hp1 : listAt points (idx + 1) with
    | error e => rfl
    | ok p1 =>
      rw [except_ok_bind, except_ok_bind]
      cases hp0 : listAt points idx with
      | error e => rfl
      | ok p0 =>
        rw [except_ok_bind, except_ok_bind]
        rw [hres]

/-- Claim C6 witness: a 2 s stamp gap with a 3 m/s² acceleration change
gives jerk `3 / 2`, and the trajectory-source equality holds at
`time_resolution = 1/2`. -/
theorem c6_jerk_forward_difference_witness :
    ManualDrivingData.longitudinal_jerk [jerkAccel0, jerkAccel1] 0 =
      Except.ok ((jerkAccel1.accel_linear.x - jerkAccel0.accel_linear.x) /
        (((jerkAccel1.stamp : ℝ) - (jerkAccel0.stamp : ℝ)) / 1e9)) ∧
    TrajectoryData.longitudinal_jerk [] 0 = trajectory_jerk_spec [] (1 / 2) 0 := by
  have h := c6_jerk_forward_difference [jerkAccel0, jerkAccel1] 0 jerkAccel1 jerkAccel0
    rfl rfl (by norm_num [jerkAccel0, jerkAccel1])
  exact ⟨h.1, h.2 [] (1 / 2) (by norm_num)⟩

/-- Claim C7: at a step whose steering (manual source) or front-wheel
(trajectory source) angle is exactly zero, lateral-acceleration extraction
returns the defined value 0 rather than failing: `tan 0 = 0` makes the
radius expression `wheel_base / 0` — IEEE `+inf`, here Lean's `0` — and the
resulting `v² / radius` is `0` under both conventions. -/
theorem c7_zero_steer_lateral_accel_zero (vi : VehicleInfo)
    (st : List SteeringReport) (od : List Odometry) (idx : ℕ)
    (s : SteeringReport) (o : Odometry)
    (hs : listAt st idx = Except.ok s) (ha : s.steering_tire_angle = 0)
    (ho : listAt od idx = Except.ok o)
    (points : List TrajectoryPoint) (p : TrajectoryPoint)
    (hp : listAt points idx = Except.ok p) (hpa : p.front_wheel_angle_rad = 0) :
    ManualDrivingData.lateral_accel vi st od idx = Except.ok 0 ∧
    TrajectoryData.lateral_accel vi points idx = Except.ok 0 := by
  constructor
  · unfold ManualDrivingData.lateral_accel
    rw [hs, except_ok_bind, ho, except_ok_bind, ha]
    simp [Real.tan_zero, div_zero]
  · unfold TrajectoryData.lateral_accel
    rw [hp, except_ok_bind, hpa]
    simp [Real.tan_zero, div_zero]

/-- Claim C7 witness: the zero-angle records of the minimal snapshot give
lateral acceleration 0 for both sources. -/
theorem c7_zero_steer_lateral_accel_zero_witness :
    ManualDrivingData.lateral_accel vi1 [oneSteer] [oneOdo] 0 = Except.ok 0 ∧
    TrajectoryData.lateral_accel vi1 [onePoint] 0 = Except.ok 0 :=
  c7_zero_steer_lateral_accel_zero vi1 [oneSteer] [oneOdo] 0 oneSteer oneOdo rfl rfl rfl
    [onePoint] onePoint rfl rfl

theorem calcLoop_ok_lengths {latf jerkf ttcf travelf : ℕ → Except CppError ℝ} :
    ∀ (k : ℕ) (mv : MetricVals), calcLoop latf jerkf ttcf travelf k = Except.ok mv →
      mv.lateral_accel.length = k ∧ mv.longitudinal_jerk.length = k ∧
      mv.minimum_ttc.length = k ∧ mv.travel_distance.length = k := by
  intro k
  induction k with
  | zero =>
    intro mv h
    unfold calcLoop at h
    simp only [Except.ok.injEq] at h
    subst h
    simp
  | succ m ih =>
    intro mv h
    unfold calcLoop at h
    obtain ⟨acc, hacc, h⟩ := except_bind_ok h
    obtain ⟨lat, _, h⟩ := except_bind_ok h
    obtain ⟨jerk, _, h⟩ := except_bind_ok h
    obtain ⟨ttc, _, h⟩ := except_bind_ok h
    obtain ⟨dist, _, h⟩ := except_bind_ok h
    simp only [Except.ok.injEq] at h
    subst h
    have hlen := ih acc hacc
    simp only [List.length_append, List.length_singleton]
    omega

/-- Claim C8 amended: whenever `calculate()` completes normally, each of the
four metric series has exactly `resample_num` entries and the final entry
of the jerk series is exactly 0 — for any data source's metric functions.
Completion is not guaranteed by full histories alone, because the TTC
helper's `front()`-on-empty defect can abort the computation (see the
counterexample). -/
theorem c8_series_lengths (n : ℕ) (hn : 1 ≤ n)
    (latf jerkf ttcf travelf : ℕ → Except CppError ℝ) (mv : MetricVals)
    (h : calculate_values n latf jerkf ttcf travelf = Except.ok mv) :
    mv.lateral_accel.length = n ∧ mv.longitudinal_jerk.length = n ∧
    mv.minimum_ttc.length = n ∧ mv.travel_distance.length = n ∧
    mv.longitudinal_jerk.getLast? = some 0 := by
  obtain ⟨acc, lat, ttc, dist, hacc, _, _, _, hmv⟩ := calculate_values_ok_inv h
  have hlen := calcLoop_ok_lengths (n - 1) acc hacc
  subst hmv
  refine ⟨?_, ?_, ?_, ?_, ?_⟩
  · simp only [List.length_append, List.length_singleton]; omega
  · simp only [List.length_append, List.length_singleton]; omega
  · simp only [List.length_append, List.length_singleton]; omega
  · simp only [List.length_append, List.length_singleton]; omega
  · rw [← List.concat_eq_append, List.getLast?_concat]

theorem manual_lateral_oneOdo_eval :
    ManualDrivingData.lateral_accel vi1 [oneSteer] [oneOdo] 0 = Except.ok 0 := by
  unfold ManualDrivingData.lateral_accel
  simp [listAt, except_ok_bind, oneOdo, zero_mul, zero_div]

theorem manual_ttc_recObjects_eval :
    ManualDrivingData.minimum_ttc [recObjectsMsg] [oneOdo] 0 =
      Except.error CppError.undefinedBehaviour := by
  unfold ManualDrivingData.minimum_ttc
  simp only [listAt, List.get?, except_ok_bind]
  have hv : velocityWorldOfOdometry oneOdo = recVEgo := by
    unfold velocityWorldOfOdometry oneOdo recVEgo transformPoint idRot
    simp only [Vec3.add, Vec3.sub]
    norm_num
  rw [hv]
  exact time_to_collision_recObjects

/-- Claim C8 counterexample: with `resample_num = 1` and every underlying
history holding exactly one entry (at least `N`), `calculate()` still fails
to produce any series: the single step's minimum-TTC computation hits the
`front()`-on-empty defect (one receding object, every ratio filtered out),
so no series of length `N` is produced. -/
theorem c8_full_history_no_series_counterexample :
    ([oneOdo].length = 1 ∧ [oneAccel].length = 1 ∧ [oneSteer].length = 1 ∧
      [recObjectsMsg].length = 1) ∧
    calculate_values 1 (ManualDrivingData.lateral_accel vi1 [oneSteer] [oneOdo])
      (ManualDrivingData.longitudinal_jerk [oneAccel])
      (ManualDrivingData.minimum_ttc [recObjectsMsg] [oneOdo])
      (ManualDrivingData.travel_distance [oneOdo]) =
      Except.error CppError.undefinedBehaviour := by
  refine ⟨⟨rfl, rfl, rfl, rfl⟩, ?_⟩
  unfold calculate_values
  simp only [Nat.sub_self, calcLoop, except_ok_bind, manual_lateral_oneOdo_eval,
    manual_ttc_recObjects_eval]
  rfl

/-- Claim C8 witness: a successful single-step evaluation (no objects) whose
series all have length 1 and whose jerk series ends in 0. -/
theorem c8_series_lengths_witness :
    ∃ mv, calculate_values 1 (ManualDrivingData.lateral_accel vi1 [oneSteer] [oneOdo])
      (ManualDrivingData.longitudinal_jerk [oneAccel])
      (ManualDrivingData.minimum_ttc [oneObjects] [oneOdo])
      (ManualDrivingData.travel_distance [oneOdo]) = Except.ok mv ∧
      mv.lateral_accel.length = 1 ∧ mv.longitudinal_jerk.length = 1 ∧
      mv.minimum_ttc.length = 1 ∧ mv.travel_distance.length = 1 ∧
      mv.longitudinal_jerk.getLast? = some 0 := by
  have httc : ManualDrivingData.minimum_ttc [oneObjects] [oneOdo] 0 =
      Except.ok DBL_MAX := by
    unfold ManualDrivingData.minimum_ttc
    simp only [listAt, List.get?, except_ok_bind]
    rfl
  have hcv : calculate_values 1 (ManualDrivingData.lateral_accel vi1 [oneSteer] [oneOdo])
      (ManualDrivingData.longitudinal_jerk [oneAccel])
      (ManualDrivingData.minimum_ttc [oneObjects] [oneOdo])
      (ManualDrivingData.travel_distance [oneOdo]) =
      Except.ok ⟨[0], [0], [DBL_MAX], [0]⟩ := by
    unfold calculate_values
    simp only [Nat.sub_self, calcLoop, except_ok_bind, manual_lateral_oneOdo_eval, httc]
    rfl
  exact ⟨⟨[0], [0], [DBL_MAX], [0]⟩, hcv,
    (c8_series_lengths 1 (le_refl 1) _ _ _ _ _ hcv).1,
    (c8_series_lengths 1 (le_refl 1) _ _ _ _ _ hcv).2.1,
    (c8_series_lengths 1 (le_refl 1) _ _ _ _ _ hcv).2.2.1,
    (c8_series_lengths 1 (le_refl 1) _ _ _ _ _ hcv).2.2.2.1,
    (c8_series_lengths 1 (le_refl 1) _ _ _ _ _ hcv).2.2.2.2⟩

theorem traj_make_ok_tag {td : TrimmedData} {vi : VehicleInfo} {n : ℕ} {res : ℚ}
    {tag : String} {points : List TrajectoryPoint} {d : TrajectoryData}
    (h : TrajectoryData.make td vi n res tag points = Except.ok d) : d.tag = tag := by
  simp only [TrajectoryData.make] at h
  obtain ⟨values, _, h⟩ := except_bind_ok h
  obtain ⟨scores, _, h⟩ := except_bind_ok h
  simp only [Except.ok.injEq] at h
  subst h
  rfl

theorem mapM_frenet_tags {td : TrimmedData} {vi : VehicleInfo} {n : ℕ} {res : ℚ} :
    ∀ (samples : List (List TrajectoryPoint)) (outs : List TrajectoryData),
      samples.mapM (fun s => TrajectoryData.make td vi n res "frenet" s) =
        Except.ok outs → ∀ d ∈ outs, d.tag = "frenet" := by
  intro samples
  induction samples with
  | nil =>
    intro outs h
    simp only [List.mapM_nil] at h
    have : outs = [] := by
      have h' : (Except.ok [] : Except CppError (List TrajectoryData)) = Except.ok outs := h
      simpa using h'.symm
    subst this
    intro d hd
    simp at hd
  | cons s rest ih =>
    intro outs h
    rw [List.mapM_cons] at h
    obtain ⟨b, hb, h⟩ := except_bind_ok h
    obtain ⟨bs, hbs, h⟩ := except_bind_ok h
    have : outs = b :: bs := by
      have h' : (Except.ok (b :: bs) : Except CppError (List TrajectoryData)) =
        Except.ok outs := h
      simpa using h'.symm
    subst this
    intro d hd
    rcases List.mem_cons.mp hd with hdb | hdbs
    · subst hdb; exact traj_make_ok_tag hb
    · exact ih bs hbs d hdbs

theorem presort_ok_inv {td : TrimmedData} {vi : VehicleInfo} {n : ℕ} {res : ℚ}
    {resampleF : Trajectory → List TrajectoryPoint}
    {samplerF : Trajectory → List (List TrajectoryPoint)}
    {odo : Odometry} {acc : AccelWithCovarianceStamped} {pre : List TrajectoryData}
    (h : SamplingTrajectoryData.presort td vi n res resampleF samplerF =
      Except.ok (odo, acc, pre)) :
    ∃ auto_data samples trajectory,
      pre = auto_data :: samples ∧
      TrajectoryData.make td vi n res "autoware" (resampleF trajectory) =
        Except.ok auto_data ∧
      (samplerF trajectory).mapM
        (fun sample => TrajectoryData.make td vi n res "frenet" sample) =
        Except.ok samples := by
  unfold SamplingTrajectoryData.presort at h
  obtain ⟨o, ho, h⟩ := except_bind_ok h
  obtain ⟨a, ha, h⟩ := except_bind_ok h
  obtain ⟨trajectory, htr, h⟩ := except_bind_ok h
  obtain ⟨auto_data, hauto, h⟩ := except_bind_ok h
  obtain ⟨samples, hsamples, h⟩ := except_bind_ok h
  simp only [Except.ok.injEq, Prod.mk.injEq] at h
  exact ⟨auto_data, samples, trajectory, h.2.2.symm, hauto, hsamples⟩

/-- Claim C10: whenever `SamplingTrajectoryData` construction succeeds, the
candidate list is non-empty and holds exactly one `"autoware"`-tagged
candidate (generated before the `"frenet"`-tagged sampled candidates, even
when the external sampler returns an empty set), so `best()` and
`autoware()` both find a candidate and never touch an empty container or a
past-the-end iterator. -/
theorem c10_candidates_nonempty_unique_autoware (td : TrimmedData) (vi : VehicleInfo)
    (n : ℕ) (res : ℚ) (resampleF : Trajectory → List TrajectoryPoint)
    (samplerF : Trajectory → List (List TrajectoryPoint)) (out : SamplingTrajectoryData)
    (h : SamplingTrajectoryData.Builds td vi n res resampleF samplerF out) :
    out.data ≠ [] ∧
    out.data.countP (fun d => d.tag == "autoware") = 1 ∧
    (∃ b, SamplingTrajectoryData.best out = Except.ok b) ∧
    (∃ a, SamplingTrajectoryData.autoware out = Except.ok a ∧ a.tag = "autoware") ∧
    (∀ pre odo acc, SamplingTrajectoryData.presort td vi n res resampleF samplerF =
        Except.ok (odo, acc, pre) →
      ∃ auto_data rest, pre = auto_data :: rest ∧ auto_data.tag = "autoware" ∧
        ∀ c ∈ rest, c.tag = "frenet") := by
  obtain ⟨pre, hpre, hperm, hchain⟩ := h
  obtain ⟨auto_data, samples, trajectory, hshape, hauto, hsamples⟩ := presort_ok_inv hpre
  have hatag : auto_data.tag = "autoware" := traj_make_ok_tag hauto
  have hstags : ∀ d ∈ samples, d.tag = "frenet" := mapM_frenet_tags _ samples hsamples
  have hcount_pre : pre.countP (fun d => d.tag == "autoware") = 1 := by
    subst hshape
    rw [List.countP_cons]
    have h0 : samples.countP (fun d => d.tag == "autoware") = 0 := by
      rw [List.countP_eq_zero]
      intro d hd
      simp only [beq_iff_eq]
      rw [hstags d hd]
      simp
    rw [h0]
    simp [hatag]
  have hcount : out.data.countP (fun d => d.tag == "autoware") = 1 := by
    rw [← List.Perm.countP_eq _ hperm]
    exact hcount_pre
  have hlen : out.data.length = pre.length := (List.Perm.length_eq hperm).symm
  have hne : out.data ≠ [] := by
    intro hempty
    rw [hempty] at hlen
    subst hshape
    simp at hlen
  refine ⟨hne, hcount, ?_, ?_, ?_⟩
  · cases hd : out.data with
    | nil => exact absurd hd hne
    | cons b rest => exact ⟨b, by simp [SamplingTrajectoryData.best, hd]⟩
  · have hex : ∃ x ∈ out.data, (fun d => d.tag == "autoware") x = true := by
      rw [← List.countP_pos_iff]
      omega
    have hsome : (out.data.find? (fun d => d.tag == "autoware")).isSome := by
      rw [List.find?_isSome]
      exact hex
    cases hf : out.data.find? (fun d => d.tag == "autoware") with
    | none => rw [hf] at hsome; simp at hsome
    | some a =>
      refine ⟨a, by simp [SamplingTrajectoryData.autoware, hf], ?_⟩
      have := List.find?_some hf
      simpa [beq_iff_eq] using this
  · intro pre' odo' acc' hpre'
    obtain ⟨auto2, samples2, trajectory2, hshape2, hauto2, hsamples2⟩ := presort_ok_inv hpre'
    exact ⟨auto2, samples2, hshape2, traj_make_ok_tag hauto2,
      mapM_frenet_tags _ samples2 hsamples2⟩

theorem scoreLoop_one (f : ℕ → Except CppError ℝ) :
    scoreLoop f 1 = f 0 >>= fun v => Except.ok (0 + v) := rfl

theorem lon_comfort_one_eval :
    longitudinal_comfortability ⟨[0], [0], [DBL_MAX], [0]⟩ 1 = Except.ok 1 := by
  unfold longitudinal_comfortability
  rw [scoreLoop_one]
  simp only [listAt, List.get?, except_ok_bind]
  norm_num [cppClamp, TIME_FACTOR]

theorem lat_comfort_one_eval :
    lateral_comfortability ⟨[0], [0], [DBL_MAX], [0]⟩ 1 = Except.ok 1 := by
  unfold lateral_comfortability
  rw [scoreLoop_one]
  simp only [listAt, List.get?, except_ok_bind]
  norm_num [cppClamp, TIME_FACTOR]

theorem efficiency_one_eval :
    efficiency ⟨[0], [0], [DBL_MAX], [0]⟩ 1 = Except.ok 0 := by
  unfold efficiency
  rw [scoreLoop_one]
  simp only [listAt, List.get?, except_ok_bind]
  norm_num [cppClamp, TIME_FACTOR]

theorem safety_one_eval :
    safety ⟨[0], [0], [DBL_MAX], [0]⟩ 1 = Except.ok 1 := by
  unfold safety
  rw [scoreLoop_one]
  simp only [listAt, List.get?, except_ok_bind]
  have hlt : ¬ (DBL_MAX < 0) := by
    norm_num [DBL_MAX]
  have hgt : (5 : ℝ) < DBL_MAX := by
    norm_num [DBL_MAX]
  norm_num [cppClamp, hlt, hgt]

theorem calc_scores_one_eval :
    calculate_scores ⟨[0], [0], [DBL_MAX], [0]⟩ 1 = Except.ok ⟨1, 1, 0, 1⟩ := by
  unfold calculate_scores
  rw [lon_comfort_one_eval, except_ok_bind, lat_comfort_one_eval, except_ok_bind,
    efficiency_one_eval, except_ok_bind, safety_one_eval, except_ok_bind]

theorem cppToInt64_intCast (v : ℤ) : cppToInt64 ((v : ℚ)) = v := by
  unfold cppToInt64
  rcases lt_or_le v 0 with hv | hv
  · rw [if_pos (by exact_mod_cast hv)]
    have h1 : (-(v:ℚ)) = ((-v : ℤ) : ℚ) := by push_cast; ring
    rw [h1]
    simp [Int.fdiv_one]
  · rw [if_neg (by exact_mod_cast not_lt.mpr hv)]
    simp [Int.fdiv_one]

theorem queryTime_half (i : ℕ) : queryTime 0 (1 / 2) i = 500000000 * (i : ℤ) := by
  unfold queryTime
  have h : ((0:ℤ):ℚ) + 1000000000 * (1 / 2) * (i : ℚ) = ((500000000 * (i:ℤ) : ℤ) : ℚ) := by
    push_cast
    ring
  rw [h, cppToInt64_intCast]

theorem collectObjects_oneTD : collectObjects oneTD 1 (1 / 2) = [oneObjects] := by
  unfold collectObjects collectObjectsFrom
  rw [show oneTD.timestamp = 0 from rfl, queryTime_half]
  norm_num [Buffer.get, oneTD, List.find?, oneObjects, collectObjectsFrom]

theorem traj_make_oneTD_eval :
    TrajectoryData.make oneTD vi1 1 (1 / 2) "autoware" [onePoint] = Except.ok oneAutoTD := by
  have hobj := collectObjects_oneTD
  have hlat : TrajectoryData.lateral_accel vi1 [onePoint] 0 = Except.ok 0 := by
    unfold TrajectoryData.lateral_accel
    simp [listAt, except_ok_bind, onePoint, zero_mul, zero_div]
  have httc : TrajectoryData.minimum_ttc [oneObjects] [onePoint] 0 = Except.ok DBL_MAX := by
    unfold TrajectoryData.minimum_ttc
    simp only [listAt, List.get?, except_ok_bind]
    rfl
  have htravel : TrajectoryData.travel_distance [onePoint] 0 = Except.ok 0 := rfl
  have hcv : calculate_values 1 (TrajectoryData.lateral_accel vi1 [onePoint])
      (TrajectoryData.longitudinal_jerk [onePoint])
      (TrajectoryData.minimum_ttc [oneObjects] [onePoint])
      (TrajectoryData.travel_distance [onePoint]) =
      Except.ok ⟨[0], [0], [DBL_MAX], [0]⟩ := by
    unfold calculate_values
    simp only [Nat.sub_self, calcLoop, except_ok_bind, hlat, httc, htravel,
      List.nil_append]
  simp only [TrajectoryData.make, hobj, hcv, except_ok_bind, calc_scores_one_eval]
  rfl

theorem presort_oneTD_eval :
    SamplingTrajectoryData.presort oneTD vi1 1 (1 / 2) (fun _ => [onePoint])
      (fun _ => []) = Except.ok (oneOdo, oneAccel, [oneAutoTD]) := by
  have h1 : Buffer.get Odometry.stamp oneTD.timestamp oneTD.buf_odometry =
    some oneOdo := rfl
  have h2 : Buffer.get AccelWithCovarianceStamped.stamp oneTD.timestamp oneTD.buf_accel =
    some oneAccel := rfl
  have h3 : Buffer.get Trajectory.stamp oneTD.timestamp oneTD.buf_trajectory =
    some oneTrajectory := rfl
  unfold SamplingTrajectoryData.presort
  rw [h1, h2, h3]
  simp only [orThrow, except_ok_bind, traj_make_oneTD_eval, List.mapM_nil]
  rfl

theorem builds_oneSTD :
    SamplingTrajectoryData.Builds oneTD vi1 1 (1 / 2) (fun _ => [onePoint])
      (fun _ => []) oneSTD :=
  ⟨[oneAutoTD], presort_oneTD_eval, List.Perm.refl _, List.chain'_singleton _⟩

/-- Claim C10 witness: the minimal snapshot with an empty Frenet sampler
output yields a one-candidate set whose single candidate is the
`"autoware"` one, found by both accessors. -/
theorem c10_candidates_nonempty_unique_autoware_witness :
    oneSTD.data ≠ [] ∧
    oneSTD.data.countP (fun d => d.tag == "autoware") = 1 ∧
    (∃ b, SamplingTrajectoryData.best oneSTD = Except.ok b) ∧
    (∃ a, SamplingTrajectoryData.autoware oneSTD = Except.ok a ∧ a.tag = "autoware") := by
  have h := c10_candidates_nonempty_unique_autoware oneTD vi1 1 (1 / 2)
    (fun _ => [onePoint]) (fun _ => []) oneSTD builds_oneSTD
  exact ⟨h.1, h.2.1, h.2.2.1, h.2.2.2.1⟩

theorem collectObjects_scn : collectObjects scnTD 5 (1 / 2) = scnObjs := by
  unfold collectObjects
  norm_num [collectObjectsFrom, queryTime_half, Buffer.get, scnTD, List.find?,
    scnObjects, scnStamp, scnObjs]

theorem collectManual_scn :
    collectManual scnTD 5 (1 / 2) = (scnOdos, scnAccels, scnSteers) := by
  unfold collectManual
  norm_num [collectManualFrom, queryTime_half, Buffer.get, scnTD, List.find?,
    scnOdo, scnAccel, scnSteer, scnStamp, scnOdos, scnAccels, scnSteers]

theorem scn_lat_eval (i : ℕ) (h : i < 5) :
    ManualDrivingData.lateral_accel vi1 scnSteers scnOdos i = Except.ok 0 := by
  unfold ManualDrivingData.lateral_accel
  interval_cases i <;>
    simp [listAt, List.get?, except_ok_bind, scnSteers, scnOdos, scnSteer, scnOdo,
      Real.tan_zero, div_zero]

theorem scn_jerk_eval (i : ℕ) (h : i < 4) :
    ManualDrivingData.longitudinal_jerk scnAccels i = Except.ok 0 := by
  unfold ManualDrivingData.longitudinal_jerk
  interval_cases i <;>
    simp [listAt, List.get?, except_ok_bind, scnAccels, scnAccel]

theorem scn_ttc_eval (i : ℕ) (h : i < 5) :
    ManualDrivingData.minimum_ttc scnObjs scnOdos i = Except.ok DBL_MAX := by
  unfold ManualDrivingData.minimum_ttc
  interval_cases i <;>
    simp [listAt, List.get?, except_ok_bind, scnObjs, scnOdos, scnObjects,
      time_to_collision]

theorem sqrt_25 : Real.sqrt 25 = 5 := by
  rw [show (25:ℝ) = 5 ^ 2 by norm_num, Real.sqrt_sq (by norm_num : (0:ℝ) ≤ 5)]

theorem scn_travel_eval (i : ℕ) (h : i < 5) :
    ManualDrivingData.travel_distance scnOdos i = Except.ok (5 * i) := by
  unfold ManualDrivingData.travel_distance
  interval_cases i <;>
    norm_num [travelLoop, listAt, List.get?, except_ok_bind, scnOdos, scnOdo,
      calcDistance3d, sqrt_25]

theorem scn_calc_values :
    calculate_values 5 (ManualDrivingData.lateral_accel vi1 scnSteers scnOdos)
      (ManualDrivingData.longitudinal_jerk scnAccels)
      (ManualDrivingData.minimum_ttc scnObjs scnOdos)
      (ManualDrivingData.travel_distance scnOdos) = Except.ok scnValues := by
  have hl0 := scn_lat_eval 0 (by norm_num)
  have hl1 := scn_lat_eval 1 (by norm_num)
  have hl2 := scn_lat_eval 2 (by norm_num)
  have hl3 := scn_lat_eval 3 (by norm_num)
  have hl4 := scn_lat_eval 4 (by norm_num)
  have hj0 := scn_jerk_eval 0 (by norm_num)
  have hj1 := scn_jerk_eval 1 (by norm_num)
  have hj2 := scn_jerk_eval 2 (by norm_num)
  have hj3 := scn_jerk_eval 3 (by norm_num)
  have ht0 := scn_ttc_eval 0 (by norm_num)
  have ht1 := scn_ttc_eval 1 (by norm_num)
  have ht2 := scn_ttc_eval 2 (by norm_num)
  have ht3 := scn_ttc_eval 3 (by norm_num)
  have ht4 := scn_ttc_eval 4 (by norm_num)
  have hd0 := scn_travel_eval 0 (by norm_num)
  have hd1 := scn_travel_eval 1 (by norm_num)
  have hd2 := scn_travel_eval 2 (by norm_num)
  have hd3 := scn_travel_eval 3 (by norm_num)
  have hd4 := scn_travel_eval 4 (by norm_num)
  norm_num at hd1 hd2 hd3 hd4
  unfold calculate_values
  norm_num [calcLoop, except_ok_bind, hl0, hl1, hl2, hl3, hl4, hj0, hj1, hj2, hj3,
    ht0, ht1, ht2, ht3, ht4, hd0, hd1, hd2, hd3, hd4, scnValues]

theorem scn_lon_comfort : longitudinal_comfortability scnValues 5 = Except.ok 1 := by
  unfold longitudinal_comfortability
  simp only [scoreLoop, listAt, List.get?, except_ok_bind, scnValues]
  norm_num [cppClamp, TIME_FACTOR]

theorem scn_lat_comfort : lateral_comfortability scnValues 5 = Except.ok 1 := by
  unfold lateral_comfortability
  simp only [scoreLoop, listAt, List.get?, except_ok_bind, scnValues]
  norm_num [cppClamp, TIME_FACTOR]

theorem scn_efficiency : efficiency scnValues 5 = Except.ok (1642 / 3125) := by
  unfold efficiency
  simp only [scoreLoop, listAt, List.get?, except_ok_bind, scnValues]
  norm_num [cppClamp, TIME_FACTOR]

theorem scn_safety : safety scnValues 5 = Except.ok 1 := by
  unfold safety
  simp only [scoreLoop, listAt, List.get?, except_ok_bind, scnValues]
  norm_num [cppClamp, TIME_FACTOR, DBL_MAX]

theorem scn_calc_scores : calculate_scores scnValues 5 = Except.ok scnScores := by
  unfold calculate_scores
  rw [scn_lon_comfort, except_ok_bind, scn_lat_comfort, except_ok_bind,
    scn_efficiency, except_ok_bind, scn_safety, except_ok_bind]
  rfl

theorem scn_make_eval :
    ManualDrivingData.make scnTD vi1 5 (1 / 2) = Except.ok scnResult := by
  simp only [ManualDrivingData.make, collectManual_scn, collectObjects_scn]
  rw [scn_calc_values, except_ok_bind, scn_calc_scores, except_ok_bind]
  rfl

/-- Claim C4 counterexample: in the straight-line no-obstacle scenario
(constant 10 m/s, zero steering, zero jerk, no objects, 5 steps at 0.5 s)
the computed efficiency score is `0.52544`, not `1.0`, and the total is
`3.52544`, not `4.0`: the efficiency term at step `i` is
`clamp(0.8^i · (cumulative distance)/0.5, 0, 20)/20`, which is `0` at step
0 and below `1` at every later step. -/
theorem c4_straight_line_counterexample :
    ManualDrivingData.make scnTD vi1 5 (1 / 2) = Except.ok scnResult ∧
    scnResult.scores.efficiency ≠ 1 ∧ scnResult.scores.total ≠ 4 := by
  refine ⟨scn_make_eval, ?_, ?_⟩
  · show (1642 / 3125 : ℝ) ≠ 1
    norm_num
  · show ScoreVals.total scnScores ≠ 4
    unfold ScoreVals.total scnScores
    norm_num

/-- Claim C4 amended: in the straight-line no-obstacle scenario the scores
are lateral comfort = 1, longitudinal comfort = 1, safety = 1, efficiency
= 1642/3125 = 0.52544 (time-decayed cumulative distance through the
clamped reward map), and the total is 11017/3125 = 3.52544. -/
theorem c4_straight_line_scores :
    ManualDrivingData.make scnTD vi1 5 (1 / 2) = Except.ok scnResult ∧
    scnResult.scores.lateral_comfortability = 1 ∧
    scnResult.scores.longitudinal_comfortability = 1 ∧
    scnResult.scores.safety = 1 ∧
    scnResult.scores.efficiency = 1642 / 3125 ∧
    scnResult.scores.total = 11017 / 3125 := by
  refine ⟨scn_make_eval, rfl, rfl, rfl, rfl, ?_⟩
  show ScoreVals.total scnScores = 11017 / 3125
  unfold ScoreVals.total scnScores
  norm_num
